import Mathlib

/-!
Verification development for `getmeson.py`, a bootstrap script that
downloads a fixed release tarball of the Meson build tool, verifies its
SHA-256 checksum, extracts it and renames the extracted directory to a
canonical name, skipping everything when a matching version is already
installed.

The script is shallowly embedded: bytes are `List Nat` (each < 256),
machine words are `Nat` reduced modulo `2 ^ 32` where overflow matters,
the observable effects of a run (prints, the network request, subprocess
spawn, filesystem mutations, stream closes) are recorded in an explicit
event trace, and process termination is either a `sys.exit`-style exit
code or an uncaught Python exception.
-/

namespace Getmeson

/-! ## SHA-256 (the digest used by `isvalidhash` via `hashlib.sha256`) -/

/-- Reduce a natural number to a 32-bit word. -/
def w32 (n : Nat) : Nat := n % 4294967296

/-- Right rotation of a 32-bit word by `n` bits. -/
def rotr (n w : Nat) : Nat := w32 ((w >>> n) ||| (w <<< (32 - n)))

/-- SHA-256 Σ₀. -/
def bigSigma0 (x : Nat) : Nat := rotr 2 x ^^^ rotr 13 x ^^^ rotr 22 x

/-- SHA-256 Σ₁. -/
def bigSigma1 (x : Nat) : Nat := rotr 6 x ^^^ rotr 11 x ^^^ rotr 25 x

/-- SHA-256 σ₀. -/
def smallSigma0 (x : Nat) : Nat := rotr 7 x ^^^ rotr 18 x ^^^ (x >>> 3)

/-- SHA-256 σ₁. -/
def smallSigma1 (x : Nat) : Nat := rotr 17 x ^^^ rotr 19 x ^^^ (x >>> 10)

/-- SHA-256 Ch function (complement taken as xor with the all-ones word). -/
def chF (x y z : Nat) : Nat := (x &&& y) ^^^ ((x ^^^ 4294967295) &&& z)

/-- SHA-256 Maj function. -/
def majF (x y z : Nat) : Nat := (x &&& y) ^^^ (x &&& z) ^^^ (y &&& z)

/-- The first 64 primes; FIPS 180-4 derives the SHA-256 constants from
their roots. -/
def sha256Primes : List Nat :=
  [2, 3, 5, 7, 11, 13, 17, 19, 23, 29, 31, 37, 41, 43, 47, 53,
   59, 61, 67, 71, 73, 79, 83, 89, 97, 101, 103, 107, 109, 113, 127, 131,
   137, 139, 149, 151, 157, 163, 167, 173, 179, 181, 191, 193, 197, 199, 211, 223,
   227, 229, 233, 239, 241, 251, 257, 263, 269, 271, 277, 281, 283, 293, 307, 311]

/-- Fueled binary search for the integer k-th root: the largest `r` in
`[lo, hi)` with `r ^ k ≤ n`, assuming `lo ^ k ≤ n < hi ^ k`. -/
def rootSearch (k n : Nat) : Nat → Nat → Nat → Nat
  | 0, lo, _ => lo
  | fuel + 1, lo, hi =>
    if hi ≤ lo + 1 then lo
    else
      let mid := (lo + hi) / 2
      if mid ^ k ≤ n then rootSearch k n fuel mid hi
      else rootSearch k n fuel lo mid

/-- Integer k-th root of `n` (for the operand sizes used here, 130
bisection steps are ample). -/
def introot (k n : Nat) : Nat := rootSearch k n 130 0 (n + 1)

/-- The first 32 bits of the fractional part of the k-th root of `p`:
`floor(p^(1/k) * 2^32) mod 2^32`. -/
def fracRootWord (k p : Nat) : Nat := introot k (p * 2 ^ (32 * k)) % 4294967296

/-- The 64 SHA-256 round constants: fractional parts of the cube roots
of the first 64 primes. -/
def sha256K : List Nat := sha256Primes.map (fracRootWord 3)

/-- The SHA-256 initial hash state: fractional parts of the square roots
of the first 8 primes. -/
def sha256H0 : List Nat := (sha256Primes.take 8).map (fracRootWord 2)

example : sha256K.take 4 = [0x428a2f98, 0x71374491, 0xb5c0fbcf, 0xe9b5dba5] := by
  decide

example : sha256H0.take 2 = [0x6a09e667, 0xbb67ae85] := by decide

/-- Big-endian byte encoding of `v` on `n` bytes. -/
def bytesBE (n v : Nat) : List Nat :=
  (List.range n).map (fun i => (v >>> (8 * (n - 1 - i))) % 256)

/-- SHA-256 padding: append `0x80`, zero bytes up to 56 mod 64, then the
bit length on 8 big-endian bytes. -/
def padMessage (msg : List Nat) : List Nat :=
  msg ++ [128] ++ List.replicate ((119 - msg.length % 64) % 64) 0
      ++ bytesBE 8 (msg.length * 8)

/-- Group a byte list into big-endian 32-bit words (complete groups of 4). -/
def wordsBE : List Nat → List Nat
  | a :: b :: c :: d :: rest => (((a * 256 + b) * 256 + c) * 256 + d) :: wordsBE rest
  | _ => []

/-- Extend 16 message words to the 64-word SHA-256 message schedule. -/
def msgSchedule (ws : List Nat) : List Nat :=
  (List.range 48).foldl
    (fun acc i =>
      acc ++ [w32 (smallSigma1 (acc.getD (i + 14) 0) + acc.getD (i + 9) 0
                   + smallSigma0 (acc.getD (i + 1) 0) + acc.getD i 0)])
    ws

/-- One SHA-256 compression step over a 16-word block, updating the
8-word hash state. -/
def compressBlock (h : List Nat) (block : List Nat) : List Nat :=
  let w := msgSchedule block
  let final := (List.range 64).foldl
    (fun st t =>
      match st with
      | [a, b, c, d, e, f, g, hh] =>
        let t1 := w32 (hh + bigSigma1 e + chF e f g + sha256K.getD t 0 + w.getD t 0)
        let t2 := w32 (bigSigma0 a + majF a b c)
        [w32 (t1 + t2), a, b, c, w32 (d + t1), e, f, g]
      | st => st) h
  match h, final with
  | [h0, h1, h2, h3, h4, h5, h6, h7], [a, b, c, d, e, f, g, hh] =>
    [w32 (h0 + a), w32 (h1 + b), w32 (h2 + c), w32 (h3 + d),
     w32 (h4 + e), w32 (h5 + f), w32 (h6 + g), w32 (h7 + hh)]
  | _, _ => h

/-- The SHA-256 digest of a byte list, as 8 32-bit words. -/
def sha256Words (msg : List Nat) : List Nat :=
  let padded := padMessage msg
  (List.range (padded.length / 64)).foldl
    (fun h i => compressBlock h (wordsBE ((padded.drop (64 * i)).take 64)))
    sha256H0

/-- Lowercase hexadecimal digit, as produced by Python's `hexdigest`. -/
def hexDigit (n : Nat) : Char :=
  if n < 10 then Char.ofNat (48 + n) else Char.ofNat (87 + n)

/-- Lowercase 8-digit hexadecimal rendering of a 32-bit word. -/
def word32Hex (v : Nat) : List Char :=
  (List.range 8).map (fun i => hexDigit ((v >>> (4 * (7 - i))) &&& 15))

/-- `hashlib.sha256(msg).hexdigest()`: the lowercase hex encoding of the
SHA-256 digest of `msg`. -/
def sha256hexdigest (msg : List Nat) : String :=
  ⟨(sha256Words msg).foldr (fun w acc => word32Hex w ++ acc) []⟩

set_option maxRecDepth 10000

example : sha256hexdigest [] =
    "e3b0c44298fc1c149afbf4c8996fb92427ae41e4649b934ca495991b7852b855" := by
  decide

example : sha256hexdigest [97, 98, 99] =
    "ba7816bf8f01cfea414140de5dae2223b00361a396177a9cb410ff61f20015ad" := by
  decide

/-! ## Module-level constants of `getmeson.py` -/

/-- `VERSION = "0.49.2"`. -/
def VERSION : String := "0.49.2"

/-- `URL`, the release-asset URL templated with the version. -/
def URL : String :=
  "https://github.com/mesonbuild/meson/releases/download/0.49.2/meson-0.49.2.tar.gz"

/-- `SHA256`, the hardcoded expected digest of the tarball. -/
def SHA256 : String :=
  "ef9f14326ec1e30d3ba1a26df0f92826ede5a79255ad723af78a2691c37109fd"

/-- `TAR_DIR = "meson-" + VERSION`. -/
def TAR_DIR : String := "meson-" ++ VERSION

/-! ## Observable effects and process termination

A run of the script is modelled as a trace of observable events plus a
termination: a process exit with an explicit code (`sys.exit`, or
falling off the end of the module, which exits 0) or an uncaught Python
exception propagating out of the module. -/

/-- One observable effect of the script. -/
inductive Event where
  /-- A line printed to standard output. -/
  | stdout (s : String)
  /-- A line printed to standard error (`eprintf` or `print(file=sys.stderr)`). -/
  | stderr (s : String)
  /-- The HTTP GET issued by `urllib.request.urlopen`. -/
  | netRequest (url : String)
  /-- The child process spawned by `subprocess.run`. -/
  | spawn (cmd : List String)
  /-- `page.close()` succeeding on the downloaded response stream. -/
  | streamClose
  /-- `t.extractall()`: the archive is written into the working directory. -/
  | fsExtractAll
  /-- `shutil.rmtree(path)`: recursive deletion. -/
  | fsRmtree (path : String)
  /-- `os.rename(src, dst)`. -/
  | fsRename (src : String) (dst : String)
  deriving DecidableEq, Repr

/-- Uncaught Python exceptions that can escape the module. -/
inductive PyErr where
  /-- `subprocess.CalledProcessError` from `subprocess.run(..., check=True)`. -/
  | calledProcessError
  /-- `UnboundLocalError` from referencing a local name that was never bound. -/
  | unboundLocalError (name : String)
  deriving DecidableEq, Repr

deriving instance DecidableEq for Except

/-- How the process run ends. -/
inductive Termination where
  /-- The interpreter exits with this code (`sys.exit(c)`, or `0` when the
  module runs off its end). -/
  | exited (code : Nat)
  /-- An exception propagates uncaught; CPython prints a traceback and
  exits with OS status 1. -/
  | uncaught (e : PyErr)
  deriving DecidableEq, Repr

/-- The operating-system exit status the run produces: the explicit code
for an exit, and 1 for an uncaught exception (CPython's behaviour). -/
def Termination.osExitCode : Termination → Nat
  | .exited c => c
  | .uncaught _ => 1

/-- A finished run: its event trace in order, and how it terminated. -/
structure RunResult where
  events : List Event
  term : Termination
  deriving DecidableEq, Repr

/-- Events that touch the network. -/
def Event.isNetwork : Event → Bool
  | .netRequest _ => true
  | _ => false

/-- Events that mutate the filesystem. -/
def Event.isFsWrite : Event → Bool
  | .fsExtractAll => true
  | .fsRmtree _ => true
  | .fsRename _ _ => true
  | _ => false

/-! ## Environment: the outside world the script interacts with -/

/-- Outcome of the `urlopen` call in `gettar`. -/
inductive DownloadOutcome where
  /-- The GET succeeds and `page.read()` returns these bytes. -/
  | success (body : List Nat)
  /-- `urlopen` raises `urllib.error.HTTPError` with this status code. -/
  | httpError (code : Nat)
  /-- `urlopen` raises `urllib.error.URLError` with this reason
  (transport-level failure: DNS, connection refused, ...). -/
  | urlError (reason : String)
  deriving DecidableEq, Repr

/-- Outcome of reading the archive in `untartodir` (after `tarfile.open`
succeeded on the in-memory buffer). -/
inductive TarOutcome where
  /-- The archive reads and extracts cleanly; its first member is named
  `firstName`. -/
  | extracted (firstName : String)
  /-- `tarfile.CompressionError` is raised while reading the members,
  before anything is written. -/
  | compressionError (msg : String)
  deriving DecidableEq, Repr

/-- The parts of the outside world the script consults: the filesystem
state at each probe, the subprocess's behaviour, the command line and the
network. `argv` is `sys.argv[1:]`. -/
structure Env where
  /-- `os.path.isfile("meson/meson.py")`. -/
  mesonPyIsFile : Bool
  /-- Standard output captured from `meson/meson.py --version`. -/
  subprocStdout : String
  /-- Exit code of that subprocess (`check=True` raises when nonzero). -/
  subprocExitCode : Nat
  /-- `sys.argv[1:]`. -/
  argv : List String
  /-- What the network does for the single GET. -/
  download : DownloadOutcome
  /-- What the tar reader does on the downloaded bytes. -/
  tar : TarOutcome
  /-- `os.path.exists("meson")` at the moment `checkedrename` probes it. -/
  mesonDirExists : Bool
  deriving Repr

/-! ## The script's functions -/

/-- Python's `str.rstrip()` restricted to ASCII whitespace: space, tab,
newline, carriage return, vertical tab, form feed. -/
def isPySpace (c : Char) : Bool :=
  c = ' ' || c = '\t' || c = '\n' || c = '\r' || c = Char.ofNat 11 || c = Char.ofNat 12

/-- `s.rstrip()`: drop trailing whitespace. -/
def pyRstrip (s : String) : String :=
  ⟨(s.data.reverse.dropWhile isPySpace).reverse⟩

/-- `exists(expectedversion)` (named `existsFn` because `exists` is a Lean
keyword): if `meson/meson.py` is a file, run it with `--version`
(`check=True`: a nonzero exit raises `CalledProcessError`), strip trailing
whitespace from its stdout and compare with `expectedversion`; otherwise
return `False`. Returns the events it emits and its Python outcome. -/
def existsFn (expectedversion : String) (env : Env) : List Event × Except PyErr Bool :=
  if env.mesonPyIsFile then
    if env.subprocExitCode = 0 then
      ([.spawn ["meson/meson.py", "--version"]],
       .ok (pyRstrip env.subprocStdout == expectedversion))
    else
      ([.spawn ["meson/meson.py", "--version"]], .error .calledProcessError)
  else
    ([], .ok false)

/-- `gettar(url)`: print a progress line, GET the url, return the body.
An `HTTPError` is reported with its status code, a `URLError` with a
check-your-network message, each followed by `sys.exit(1)`; but on those
paths the `finally: page.close()` references `page`, which `urlopen`
never bound, so an `UnboundLocalError` replaces the `SystemExit` and
propagates instead. On success the `finally` closes the stream. -/
def gettar (url : String) (d : DownloadOutcome) : List Event × Except PyErr (List Nat) :=
  match d with
  | .success body =>
    ([.stdout ("Downloading " ++ url ++ "..."), .netRequest url, .streamClose],
     .ok body)
  | .httpError code =>
    ([.stdout ("Downloading " ++ url ++ "..."), .netRequest url,
      .stderr (toString code ++ "\nCheck if " ++ url ++ " is up.")],
     .error (.unboundLocalError "page"))
  | .urlError reason =>
    ([.stdout ("Downloading " ++ url ++ "..."), .netRequest url,
      .stderr (reason ++ "\nCheck your network connection.")],
     .error (.unboundLocalError "page"))

/-- `isvalidhash(file, expectedhash)`: exact string comparison of the
lowercase hex SHA-256 digest of `file` with `expectedhash`. -/
def isvalidhash (file : List Nat) (expectedhash : String) : Bool :=
  sha256hexdigest file == expectedhash

/-- `checkedrename(src, dst)`: if `src` is not `TAR_DIR`, report and
`sys.exit(1)`; otherwise delete an existing `dst` recursively (with a
warning) and rename `src` to `dst`. Returns its events and, when it
called `sys.exit`, the exit code. -/
def checkedrename (src dst : String) (dstExists : Bool) : List Event × Option Nat :=
  if src ≠ TAR_DIR then
    ([.stderr "The archive extracted path was unexpected. Please try to extract it yourself"],
     some 1)
  else if dstExists then
    ([.stderr ("Overwriting " ++ dst ++ "."), .fsRmtree dst, .fsRename src dst], none)
  else
    ([.fsRename src dst], none)

/-- `untartodir(tar)`: read the first member's name and extract the whole
archive into the working directory; on `tarfile.CompressionError` print
the error to stderr and return normally (no rename); otherwise rename the
extracted root to `"meson"` via `checkedrename`. The `finally` closes the
in-memory buffer and the reader on every path. -/
def untartodir (t : TarOutcome) (dstExists : Bool) : List Event × Option Nat :=
  match t with
  | .compressionError msg => ([.stderr msg], none)
  | .extracted name =>
    let (ev, ex) := checkedrename name "meson" dstExists
    ([Event.fsExtractAll] ++ ev, ex)

/-! ## The module-level main flow -/

/-- The message printed by the dry-run branch. -/
def dryRunMsg : String :=
  "Did not find meson-" ++ VERSION ++ " and dry run was requested.\nWould have installed " ++ URL

/-- The success message printed after `untartodir` returns. -/
def installedMsg : String :=
  "Meson should be installed. You can run it with `./meson/meson.py` on *nix"
    ++ " and `python.exe meson\\meson.py` on Windows"

/-- The message printed on a checksum mismatch. -/
def checksumMismatchMsg : String :=
  "The checksum of the downloaded file does not match!\nPlease download and verify the file manually."

/-- The module-level flow of `getmeson.py`, generic in the checksum
predicate `check` (the script instantiates it with `isvalidhash`; the
control flow does not depend on which predicate is used). -/
def mainFlowWith (check : List Nat → String → Bool) (env : Env) : RunResult :=
  let (ev1, r1) := existsFn VERSION env
  match r1 with
  | .error e => ⟨ev1, .uncaught e⟩
  | .ok true => ⟨ev1 ++ [.stdout "Found meson, skipping download."], .exited 0⟩
  | .ok false =>
    if env.argv.contains "-n" then
      ⟨ev1 ++ [.stderr dryRunMsg], .exited 1⟩
    else
      let (ev2, r2) := gettar URL env.download
      match r2 with
      | .error e => ⟨ev1 ++ ev2, .uncaught e⟩
      | .ok body =>
        if check body SHA256 then
          let (ev3, ex) := untartodir env.tar env.mesonDirExists
          match ex with
          | some c => ⟨ev1 ++ ev2 ++ ev3, .exited c⟩
          | none => ⟨ev1 ++ ev2 ++ ev3 ++ [.stdout installedMsg], .exited 0⟩
        else
          ⟨ev1 ++ ev2 ++ [.stderr checksumMismatchMsg], .exited 0⟩

/-- The module-level flow of `getmeson.py` as written, checking the
downloaded bytes with `isvalidhash` against `SHA256`. -/
def mainFlow (env : Env) : RunResult :=
  mainFlowWith isvalidhash env

/-! ## Helper lemmas -/

/-- `existsFn` emits at most a subprocess spawn: never a network request
or a filesystem write. -/
lemma existsFn_events_harmless (v : String) (env : Env) :
    ∀ e ∈ (existsFn v env).1, e.isNetwork = false ∧ e.isFsWrite = false := by
  cases h1 : env.mesonPyIsFile <;> simp [existsFn, h1]
  by_cases h2 : env.subprocExitCode = 0 <;>
    simp [h2, Event.isNetwork, Event.isFsWrite]

/-- The hardcoded digest is not the digest of the empty byte string. -/
lemma sha256_empty_ne_SHA256 : isvalidhash [] SHA256 = false := by decide

/-! ## Claims -/

/-- C2: `isvalidhash B D` is true iff the lowercase hex encoding of the
SHA-256 digest of `B` is exactly equal to `D`, with a case-sensitive
string comparison; in particular the known digest of the empty byte
string is accepted only in its lowercase hex spelling, and the same
digest written in uppercase is rejected. -/
theorem C2_isvalidhash_exact_digest :
    (∀ (B : List Nat) (D : String), isvalidhash B D = true ↔ sha256hexdigest B = D)
    ∧ isvalidhash []
        "e3b0c44298fc1c149afbf4c8996fb92427ae41e4649b934ca495991b7852b855" = true
    ∧ isvalidhash []
        "E3B0C44298FC1C149AFBF4C8996FB92427AE41E4649B934CA495991B7852B855" = false := by
  refine ⟨fun B D => ?_, by decide, by decide⟩
  simp [isvalidhash]

/-- Witness for C2: the digest of the byte `0x00` is accepted against
its own hex encoding. -/
theorem C2_isvalidhash_exact_digest_holds :
    isvalidhash [0] (sha256hexdigest [0]) = true :=
  (C2_isvalidhash_exact_digest.1 [0] (sha256hexdigest [0])).mpr rfl

/-- C3: `exists(expectedversion)` returns `False` when `meson/meson.py`
is not a file; when it is, it spawns that file with `--version`, strips
trailing whitespace from the captured stdout, and (when the subprocess
exits 0) returns true exactly when the stripped output equals
`expectedversion`. -/
theorem C3_existsFn_version_check (v : String) (env : Env) :
    (env.mesonPyIsFile = false → existsFn v env = ([], Except.ok false))
    ∧ (env.mesonPyIsFile = true → env.subprocExitCode = 0 →
        existsFn v env = ([Event.spawn ["meson/meson.py", "--version"]],
                          Except.ok (pyRstrip env.subprocStdout == v))
        ∧ ((existsFn v env).2 = Except.ok true ↔ pyRstrip env.subprocStdout = v)) := by
  constructor
  · intro h
    simp [existsFn, h]
  · intro h1 h2
    constructor
    · simp [existsFn, h1, h2]
    · simp [existsFn, h1, h2]

/-- Witness for C3: with no `meson/meson.py` the result is `False`; with
the file present and the subprocess printing `"0.49.2\n"` the result is
`True`. -/
theorem C3_existsFn_version_check_holds :
    existsFn "0.49.2" ⟨false, "", 0, [], DownloadOutcome.success [],
        TarOutcome.extracted "x", false⟩ = ([], Except.ok false)
    ∧ existsFn "0.49.2" ⟨true, "0.49.2\n", 0, [], DownloadOutcome.success [],
        TarOutcome.extracted "x", false⟩
      = ([Event.spawn ["meson/meson.py", "--version"]], Except.ok true) := by
  refine ⟨(C3_existsFn_version_check "0.49.2" _).1 rfl, ?_⟩
  have h := ((C3_existsFn_version_check "0.49.2"
      ⟨true, "0.49.2\n", 0, [], DownloadOutcome.success [],
        TarOutcome.extracted "x", false⟩).2 rfl rfl).1
  rw [h]
  decide

/-- C4: when `meson/meson.py` exists and the version subprocess exits
nonzero, `exists` raises `CalledProcessError` (uncaught, `check=True`),
never returning a boolean, and the whole run dies with that exception. -/
theorem C4_existsFn_propagates_failure (v : String) (env : Env)
    (h1 : env.mesonPyIsFile = true) (h2 : env.subprocExitCode ≠ 0) :
    (existsFn v env).2 = Except.error PyErr.calledProcessError
    ∧ (∀ b : Bool, (existsFn v env).2 ≠ Except.ok b)
    ∧ (mainFlow env).term = Termination.uncaught PyErr.calledProcessError := by
  have hx : existsFn v env
      = ([Event.spawn ["meson/meson.py", "--version"]],
         Except.error PyErr.calledProcessError) := by
    simp [existsFn, h1, h2]
  have hx2 : existsFn VERSION env
      = ([Event.spawn ["meson/meson.py", "--version"]],
         Except.error PyErr.calledProcessError) := by
    simp [existsFn, h1, h2]
  refine ⟨by simp [hx], by simp [hx], ?_⟩
  simp [mainFlow, mainFlowWith, hx2]

/-- Witness for C4 at a subprocess exit code of 2. -/
theorem C4_existsFn_propagates_failure_holds :
    (existsFn "0.49.2" ⟨true, "oops", 2, [], DownloadOutcome.success [],
        TarOutcome.extracted "x", false⟩).2
      = Except.error PyErr.calledProcessError := by
  exact (C4_existsFn_propagates_failure "0.49.2"
    ⟨true, "oops", 2, [], DownloadOutcome.success [],
        TarOutcome.extracted "x", false⟩ rfl (by decide)).1

/-- C7: for every `src` different from `TAR_DIR = "meson-0.49.2"`,
`checkedrename src dst` reports the unexpected layout and exits with
code 1 having performed no filesystem mutation: no recursive delete of
`dst` and no rename. -/
theorem C7_checkedrename_guard (src dst : String) (dstExists : Bool)
    (h : src ≠ TAR_DIR) :
    checkedrename src dst dstExists
      = ([Event.stderr "The archive extracted path was unexpected. Please try to extract it yourself"],
         some 1)
    ∧ ∀ e ∈ (checkedrename src dst dstExists).1, e.isFsWrite = false := by
  have hx : checkedrename src dst dstExists
      = ([Event.stderr "The archive extracted path was unexpected. Please try to extract it yourself"],
         some 1) := by
    simp [checkedrename, h]
  refine ⟨hx, ?_⟩
  rw [hx]
  simp [Event.isFsWrite]

/-- Witness for C7 at the spec's scenario `src = "unexpected-dir"`. -/
theorem C7_checkedrename_guard_holds :
    checkedrename "unexpected-dir" "meson" true
      = ([Event.stderr "The archive extracted path was unexpected. Please try to extract it yourself"],
         some 1) :=
  (C7_checkedrename_guard "unexpected-dir" "meson" true (by decide)).1

/-- C5: when the expected version is not installed and `-n` is among the
command-line arguments, the run prints the dry-run report and exits with
code 1, with no network request and no filesystem write in its trace. -/
theorem C5_dry_run (env : Env)
    (h1 : (existsFn VERSION env).2 = Except.ok false)
    (h2 : env.argv.contains "-n" = true) :
    (mainFlow env).term = Termination.exited 1
    ∧ Event.stderr dryRunMsg ∈ (mainFlow env).events
    ∧ ∀ e ∈ (mainFlow env).events, e.isNetwork = false ∧ e.isFsWrite = false := by
  have harmless := existsFn_events_harmless VERSION env
  rcases hx : existsFn VERSION env with ⟨ev1, r1⟩
  rw [hx] at h1 harmless
  simp only at h1
  subst h1
  have h2' : "-n" ∈ env.argv := by simpa using h2
  have hm : mainFlow env = ⟨ev1 ++ [Event.stderr dryRunMsg], Termination.exited 1⟩ := by
    simp [mainFlow, mainFlowWith, hx, h2']
  rw [hm]
  refine ⟨rfl, by simp, ?_⟩
  intro e he
  rcases List.mem_append.mp he with h | h
  · exact harmless e h
  · simp at h
    subst h
    exact ⟨rfl, rfl⟩

/-- Witness for C5: no install present, `argv = ["-n"]`. -/
theorem C5_dry_run_holds :
    (mainFlow ⟨false, "", 0, ["-n"], DownloadOutcome.success [],
        TarOutcome.extracted "x", false⟩).term = Termination.exited 1 :=
  (C5_dry_run ⟨false, "", 0, ["-n"], DownloadOutcome.success [],
      TarOutcome.extracted "x", false⟩ (by decide) (by decide)).1

/-- C6: when the downloaded bytes fail the checksum, the trace contains
no filesystem write at all: no `extractall`, no `rmtree`, no rename, so
the canonical directory is left absent or unchanged. -/
theorem C6_mismatch_no_extraction (env : Env) (body : List Nat)
    (h1 : (existsFn VERSION env).2 = Except.ok false)
    (h2 : env.argv.contains "-n" = false)
    (h3 : env.download = DownloadOutcome.success body)
    (h4 : isvalidhash body SHA256 = false) :
    (∀ e ∈ (mainFlow env).events, e.isFsWrite = false)
    ∧ Event.fsExtractAll ∉ (mainFlow env).events := by
  have harmless := existsFn_events_harmless VERSION env
  rcases hx : existsFn VERSION env with ⟨ev1, r1⟩
  rw [hx] at h1 harmless
  simp only at h1
  subst h1
  have h2' : "-n" ∉ env.argv := by simpa using h2
  have hm : mainFlow env
      = ⟨ev1 ++ [Event.stdout ("Downloading " ++ URL ++ "..."), Event.netRequest URL,
          Event.streamClose, Event.stderr checksumMismatchMsg], Termination.exited 0⟩ := by
    simp [mainFlow, mainFlowWith, hx, h2', gettar, h3, h4]
  rw [hm]
  have hall : ∀ e ∈ (ev1 ++ [Event.stdout ("Downloading " ++ URL ++ "..."),
      Event.netRequest URL, Event.streamClose, Event.stderr checksumMismatchMsg]),
      Event.isFsWrite e = false := by
    intro e he
    rcases List.mem_append.mp he with h | h
    · exact (harmless e h).2
    · simp at h
      rcases h with h | h | h | h <;> subst h <;> rfl
  refine ⟨hall, fun hmem => ?_⟩
  have := hall Event.fsExtractAll hmem
  simp [Event.isFsWrite] at this

/-- Witness for C6: empty downloaded body (its digest differs from the
hardcoded one), no install present, no dry-run flag. -/
theorem C6_mismatch_no_extraction_holds :
    Event.fsExtractAll ∉ (mainFlow ⟨false, "", 0, [], DownloadOutcome.success [],
        TarOutcome.extracted "meson-0.49.2", true⟩).events :=
  (C6_mismatch_no_extraction ⟨false, "", 0, [], DownloadOutcome.success [],
      TarOutcome.extracted "meson-0.49.2", true⟩ [] (by decide) (by decide) rfl
      (by decide)).2

/-- Environment refuting C1: nothing installed, no flags, the download
"succeeds" with an empty body whose digest differs from the hardcoded
one. -/
def envChecksumMismatch : Env :=
  ⟨false, "", 0, [], DownloadOutcome.success [],
   TarOutcome.extracted "meson-0.49.2", false⟩

/-- C1 counterexample: on a checksum mismatch the error message is
printed, but the script performs no `sys.exit` on that branch and simply
runs off the end of the module, so the process exits with code 0 — not
with the non-zero code (1) the claim states. -/
theorem C1_checksum_mismatch_exit_refuted :
    Event.stderr checksumMismatchMsg ∈ (mainFlow envChecksumMismatch).events
    ∧ (mainFlow envChecksumMismatch).term = Termination.exited 0
    ∧ (mainFlow envChecksumMismatch).term ≠ Termination.exited 1
    ∧ (mainFlow envChecksumMismatch).term.osExitCode = 0 := by
  decide

/-- C1 amended: on a checksum mismatch the process prints the error
message and exits with code 0 (the mismatch branch only prints; the
module then ends, which is an exit with code 0). -/
theorem C1_checksum_mismatch_exits_zero (env : Env) (body : List Nat)
    (h1 : (existsFn VERSION env).2 = Except.ok false)
    (h2 : env.argv.contains "-n" = false)
    (h3 : env.download = DownloadOutcome.success body)
    (h4 : isvalidhash body SHA256 = false) :
    Event.stderr checksumMismatchMsg ∈ (mainFlow env).events
    ∧ (mainFlow env).term = Termination.exited 0 := by
  rcases hx : existsFn VERSION env with ⟨ev1, r1⟩
  rw [hx] at h1
  simp only at h1
  subst h1
  have h2' : "-n" ∉ env.argv := by simpa using h2
  have hm : mainFlow env
      = ⟨ev1 ++ [Event.stdout ("Downloading " ++ URL ++ "..."), Event.netRequest URL,
          Event.streamClose, Event.stderr checksumMismatchMsg], Termination.exited 0⟩ := by
    simp [mainFlow, mainFlowWith, hx, h2', gettar, h3, h4]
  rw [hm]
  simp

/-- Witness for the amended C1 at a concrete mismatching environment. -/
theorem C1_checksum_mismatch_exits_zero_holds :
    (mainFlow ⟨false, "", 0, [], DownloadOutcome.success [],
        TarOutcome.extracted "x", false⟩).term = Termination.exited 0 :=
  (C1_checksum_mismatch_exits_zero ⟨false, "", 0, [], DownloadOutcome.success [],
      TarOutcome.extracted "x", false⟩ [] (by decide) (by decide) rfl (by decide)).2

/-- C8: in a run that reaches the download, an HTTP-level failure has
its status code printed (followed by a service-availability hint) and
the process terminates with non-zero OS status; a transport-level
failure has its reason printed with a check-your-network hint and the
process again terminates non-zero; a successful GET makes `gettar`
return the full response body. -/
theorem C8_gettar_failure_modes (env : Env)
    (h1 : (existsFn VERSION env).2 = Except.ok false)
    (h2 : env.argv.contains "-n" = false) :
    (∀ c : Nat, env.download = DownloadOutcome.httpError c →
        (mainFlow env).term.osExitCode ≠ 0
        ∧ Event.stderr (toString c ++ "\nCheck if " ++ URL ++ " is up.")
            ∈ (mainFlow env).events)
    ∧ (∀ r : String, env.download = DownloadOutcome.urlError r →
        (mainFlow env).term.osExitCode ≠ 0
        ∧ Event.stderr (r ++ "\nCheck your network connection.")
            ∈ (mainFlow env).events)
    ∧ (∀ body : List Nat, env.download = DownloadOutcome.success body →
        (gettar URL env.download).2 = Except.ok body) := by
  rcases hx : existsFn VERSION env with ⟨ev1, r1⟩
  rw [hx] at h1
  simp only at h1
  subst h1
  have h2' : "-n" ∉ env.argv := by simpa using h2
  refine ⟨fun c hc => ?_, fun r hr => ?_, fun body hb => ?_⟩
  · have hm : mainFlow env
        = ⟨ev1 ++ [Event.stdout ("Downloading " ++ URL ++ "..."), Event.netRequest URL,
            Event.stderr (toString c ++ "\nCheck if " ++ URL ++ " is up.")],
           Termination.uncaught (PyErr.unboundLocalError "page")⟩ := by
      simp [mainFlow, mainFlowWith, hx, h2', gettar, hc]
    rw [hm]
    exact ⟨by simp [Termination.osExitCode], by simp⟩
  · have hm : mainFlow env
        = ⟨ev1 ++ [Event.stdout ("Downloading " ++ URL ++ "..."), Event.netRequest URL,
            Event.stderr (r ++ "\nCheck your network connection.")],
           Termination.uncaught (PyErr.unboundLocalError "page")⟩ := by
      simp [mainFlow, mainFlowWith, hx, h2', gettar, hr]
    rw [hm]
    exact ⟨by simp [Termination.osExitCode], by simp⟩
  · simp [gettar, hb]

/-- Witness for C8 at a 404 HTTP failure with nothing installed. -/
theorem C8_gettar_failure_modes_holds :
    (mainFlow ⟨false, "", 0, [], DownloadOutcome.httpError 404,
        TarOutcome.extracted "x", false⟩).term.osExitCode ≠ 0 :=
  ((C8_gettar_failure_modes ⟨false, "", 0, [], DownloadOutcome.httpError 404,
      TarOutcome.extracted "x", false⟩ (by decide) (by decide)).1 404 rfl).1

/-- Environment for C9: the GET fails with HTTP 503 before `page` is
ever bound. -/
def envDownloadFailed : Env :=
  ⟨false, "", 0, [], DownloadOutcome.httpError 503, TarOutcome.extracted "x", false⟩

/-- C9: the response stream is closed only on the success path; on the
failure paths, where `urlopen` itself raised, the `finally` clause calls
`page.close()` on a name that was never bound, so the run dies with an
`UnboundLocalError` (which replaces the intended `SystemExit`) and no
stream close happens. -/
theorem C9_stream_close_on_failure_paths :
    Event.streamClose ∈ (gettar URL (DownloadOutcome.success [])).1
    ∧ (gettar URL (DownloadOutcome.httpError 503)).2
        = Except.error (PyErr.unboundLocalError "page")
    ∧ Event.streamClose ∉ (gettar URL (DownloadOutcome.httpError 503)).1
    ∧ (gettar URL (DownloadOutcome.urlError "connection refused")).2
        = Except.error (PyErr.unboundLocalError "page")
    ∧ Event.streamClose ∉ (gettar URL (DownloadOutcome.urlError "connection refused")).1
    ∧ (mainFlow envDownloadFailed).term
        = Termination.uncaught (PyErr.unboundLocalError "page") := by
  decide

/-- C10: if the checksum check passes (stated generically over the
checksum predicate; `mainFlow` is `mainFlowWith isvalidhash`) but the
tar reader raises `CompressionError`, `untartodir` prints the error and
skips the rename, yet the main flow still prints the success message and
the process exits with code 0 although nothing was installed. -/
theorem C10_compression_error_reports_success
    (check : List Nat → String → Bool) (env : Env) (body : List Nat) (msg : String)
    (h1 : (existsFn VERSION env).2 = Except.ok false)
    (h2 : env.argv.contains "-n" = false)
    (h3 : env.download = DownloadOutcome.success body)
    (h4 : check body SHA256 = true)
    (h5 : env.tar = TarOutcome.compressionError msg) :
    Event.stderr msg ∈ (mainFlowWith check env).events
    ∧ (∀ s d : String, Event.fsRename s d ∉ (mainFlowWith check env).events)
    ∧ Event.stdout installedMsg ∈ (mainFlowWith check env).events
    ∧ (mainFlowWith check env).term = Termination.exited 0 := by
  have harmless := existsFn_events_harmless VERSION env
  rcases hx : existsFn VERSION env with ⟨ev1, r1⟩
  rw [hx] at h1 harmless
  simp only at h1
  subst h1
  have h2' : "-n" ∉ env.argv := by simpa using h2
  have hm : mainFlowWith check env
      = ⟨ev1 ++ [Event.stdout ("Downloading " ++ URL ++ "..."), Event.netRequest URL,
          Event.streamClose, Event.stderr msg, Event.stdout installedMsg],
         Termination.exited 0⟩ := by
    simp [mainFlowWith, hx, h2', gettar, h3, h4, h5, untartodir]
  rw [hm]
  refine ⟨by simp, fun s d hmem => ?_, by simp, rfl⟩
  rcases List.mem_append.mp hmem with h | h
  · have := (harmless _ h).2
    simp [Event.isFsWrite] at this
  · simp at h

/-- Witness for C10 with an always-true checksum predicate and a
concrete corrupt archive. -/
theorem C10_compression_error_reports_success_holds :
    (mainFlowWith (fun _ _ => true) ⟨false, "", 0, [], DownloadOutcome.success [],
        TarOutcome.compressionError "bad gzip stream", false⟩).term
      = Termination.exited 0 :=
  (C10_compression_error_reports_success (fun _ _ => true)
      ⟨false, "", 0, [], DownloadOutcome.success [],
        TarOutcome.compressionError "bad gzip stream", false⟩ [] "bad gzip stream"
      (by decide) (by decide) rfl rfl rfl).2.2.2

end Getmeson
